import Mathlib

/-!
Shallow embedding of the aptos-logger asynchronous logging pipeline
(crates/aptos-logger/src/aptos_logger.rs): log entry construction, the
dual local/remote filter pair, the facade submit path with its bounded
non-blocking delivery channel, the dispatcher's per-sink fan-out, the
logstash retry-then-drop writer, and the builder's filter wiring.

Environment interactions (wall clock, hostname lookup, the captured call
stack, channel occupancy, TCP write outcomes, environment variables) are
passed in as explicit parameters; metric counters are modelled as
increment amounts returned by each operation.
-/

namespace AptosLogger

/-- Severity of a log statement (source `Level`): Error is most severe and
carries the lowest numeric value. -/
inductive Level where
  | Error
  | Warn
  | Info
  | Debug
  | Trace
  deriving DecidableEq, Repr

/-- A verbosity threshold for a `Filter` (source `LevelFilter`): `Off`
admits nothing; otherwise the threshold named after a level admits that
level and everything more severe. -/
inductive LevelFilter where
  | Off
  | Error
  | Warn
  | Info
  | Debug
  | Trace
  deriving DecidableEq, Repr

/-- Numeric rank of a level; lower = more severe. -/
def levelNum : Level → Nat
  | .Error => 1
  | .Warn => 2
  | .Info => 3
  | .Debug => 4
  | .Trace => 5

/-- Numeric rank of a threshold; `Off` is below every level's rank. -/
def filterNum : LevelFilter → Nat
  | .Off => 0
  | .Error => 1
  | .Warn => 2
  | .Info => 3
  | .Debug => 4
  | .Trace => 5

/-- The `From<Level> for LevelFilter` conversion used by
`filter_level(self.level.into())`. -/
def levelToFilter : Level → LevelFilter
  | .Error => .Error
  | .Warn => .Warn
  | .Info => .Info
  | .Debug => .Debug
  | .Trace => .Trace

/-- Call-site descriptor (source `Metadata`): level, target, module path,
file and line. -/
structure Metadata where
  level : Level
  target : String
  module_path : String
  file : String
  line : Nat
  deriving DecidableEq, Repr

/-- Semi-structured value (source `serde_json::Value`). The claims under
verification only inspect the field map's keys, ordering and presence, so
the scalar fragment suffices; nesting would not change any statement. -/
inductive Json where
  | null
  | bool (b : Bool)
  | num (n : Int)
  | str (s : String)
  deriving DecidableEq, Repr

/-- Field name in a log entry's data map (source `Key`, a string newtype). -/
abbrev Key := String

/-- Modelled from the spec (§4.1): the `Filter` type lives outside the
provided source region (only its uses appear in aptos_logger.rs). A filter
is a default threshold plus per-target overrides; evaluation picks the
most specific (longest) directive whose target is a prefix of the
metadata's target, falling back to the default, and accepts iff the
metadata's level rank is at most the chosen threshold's rank. -/
structure Filter where
  default_level : LevelFilter
  directives : List (String × LevelFilter)
  deriving DecidableEq, Repr

/-- Most specific (longest) directive whose target is a prefix of the
given target, if any. Modelled from the spec (§4.1). -/
def bestDirective (target : String) : List (String × LevelFilter) → Option (String × LevelFilter)
  | [] => none
  | (t, l) :: rest =>
    let best := bestDirective target rest
    if t.isPrefixOf target then
      match best with
      | some (t', l') => if t'.length < t.length then some (t, l) else some (t', l')
      | none => some (t, l)
    else
      best

/-- Modelled from the spec (§4.1): `Filter::enabled(metadata)`. -/
def Filter.enabled (f : Filter) (md : Metadata) : Bool :=
  let lvl :=
    match bestDirective md.target f.directives with
    | some tl => tl.2
    | none => f.default_level
  decide (levelNum md.level ≤ filterNum lvl)

/-- The filter produced by `filter_builder.filter_level(l).build()`: a bare
default threshold with no directives. -/
def Filter.ofLevel (l : LevelFilter) : Filter :=
  { default_level := l, directives := [] }

/-- Source `FilterPair`: the local printer filter and the remote filter. -/
structure FilterPair where
  local_filter : Filter
  remote_filter : Filter
  deriving DecidableEq, Repr

/-- Source `FilterPair::enabled`: the OR gate consulted before building an
entry at all. -/
def FilterPair.enabled (fp : FilterPair) (md : Metadata) : Bool :=
  fp.local_filter.enabled md || fp.remote_filter.enabled md

/-- A field value as seen by the visitor (source `Value`): debug-rendered
text, display-rendered text, or a structured value whose conversion to
JSON may fail (source: `serde_json::to_value` returning `Err`). The
rendered text / conversion outcome is carried explicitly since the
underlying Rust values are opaque. -/
inductive Value where
  | debug (rendered : String)
  | display (rendered : String)
  | serde (result : Except String Json)

/-- The per-variant conversion performed by `JsonVisitor::visit_pair`. -/
def convertValue : Value → Except String Json
  | .debug d => .ok (.str d)
  | .display d => .ok (.str d)
  | .serde r => r

/-- The diagnostic `eprintln!` emitted when a structured value fails to
convert. -/
def conversionDiag (err : String) : String :=
  "error serializing structured log: " ++ err

/-- One log emission (source `Event`): metadata, optional formatted
message, and the sequence of (key, value) pairs the schemas visit. -/
structure Event where
  metadata : Metadata
  message : Option String
  pairs : List (Key × Value)

/-- `BTreeMap::insert` on an association list kept strictly sorted by key:
insert before the first larger key, replacing an equal key. -/
def insertSorted (k : Key) (v : Json) : List (Key × Json) → List (Key × Json)
  | [] => [(k, v)]
  | (k', v') :: rest =>
    if k < k' then (k, v) :: (k', v') :: rest
    else if k = k' then (k, v) :: rest
    else (k', v') :: insertSorted k v rest

/-- The visitor fold of `LogEntry::new`: each pair is converted and
inserted into the map; a conversion failure emits a diagnostic and skips
the field. -/
def buildDataAux (acc : List (Key × Json)) (diags : List String) :
    List (Key × Value) → List (Key × Json) × List String
  | [] => (acc, diags)
  | (k, v) :: rest =>
    match convertValue v with
    | .ok j => buildDataAux (insertSorted k j acc) diags rest
    | .error e => buildDataAux acc (diags ++ [conversionDiag e]) rest

/-- The frame trimming in `LogEntry::new`: the first 3 frames are drained
only when more than 3 frames were captured. -/
def processFrames (frames : List String) : List String :=
  if frames.length > 3 then frames.drop 3 else frames

/-- Source `LogEntry`: the materialized immutable record. The backtrace is
kept as the retained frame list (the source stores its debug rendering). -/
structure LogEntry where
  metadata : Metadata
  thread_name : Option String
  backtrace : Option (List String)
  hostname : Option String
  timestamp : String
  data : List (Key × Json)
  message : Option String
  deriving DecidableEq, Repr

/-- Source `LogEntry::new`. The captured call stack `frames`, the cached
`hostname` and the wall-clock `timestamp` are environment inputs. Returns
the entry together with the diagnostics emitted while visiting fields. -/
def LogEntry.new (event : Event) (thread_name : Option String) (enable_backtrace : Bool)
    (frames : List String) (hostname : Option String) (timestamp : String) :
    LogEntry × List String :=
  let metadata := event.metadata
  let backtrace :=
    if enable_backtrace && decide (metadata.level = Level.Error) then
      some (processFrames frames)
    else
      none
  let dataAndDiags := buildDataAux [] [] event.pairs
  ({ metadata := metadata
     thread_name := thread_name
     backtrace := backtrace
     hostname := hostname
     timestamp := timestamp
     data := dataAndDiags.1
     message := event.message },
   dataAndDiags.2)

/-- Source `AptosData` (the Facade). The `sender`/`printer` options are
modelled by presence flags; the formatter is not needed by any claim and
is elided (written entries are recorded as the entries themselves). -/
structure AptosData where
  enable_backtrace : Bool
  hasSender : Bool
  hasPrinter : Bool
  filter : FilterPair
  deriving DecidableEq, Repr

/-- Source `Logger::enabled for AptosData`: consult the live filter pair. -/
def AptosData.enabled (d : AptosData) (md : Metadata) : Bool :=
  d.filter.enabled md

/-- The bounded mpsc delivery channel, producer view: buffered entries, the
configured bound, and whether the receiving dispatcher still exists. -/
structure QueueState where
  entries : List LogEntry
  capacity : Nat
  receiverAlive : Bool
  deriving DecidableEq, Repr

/-- `SyncSender::try_send`: succeeds iff the receiver is still connected
and the bounded buffer has room; never blocks. Returns the new queue and
whether the send succeeded. -/
def trySend (q : QueueState) (e : LogEntry) : QueueState × Bool :=
  if q.receiverAlive && decide (q.entries.length < q.capacity) then
    ({ q with entries := q.entries ++ [e] }, true)
  else
    (q, false)

/-- Observable effect of `AptosData::send_entry`: entries formatted and
written to the facade's own printer (sync path), the queue afterwards, the
increment to the queue-drop counter `STRUCT_LOG_QUEUE_ERROR_COUNT`, and
the number of enqueue attempts made. -/
structure SendEffect where
  printed : List LogEntry
  queue : QueueState
  queue_error_inc : Nat
  enqueue_attempts : Nat
  deriving DecidableEq, Repr

/-- Source `AptosData::send_entry`: write to the printer when one is
configured, then make a single non-blocking enqueue attempt when a sender
exists, counting a drop on failure. No filter is consulted here. -/
def send_entry (d : AptosData) (entry : LogEntry) (q : QueueState) : SendEffect :=
  let printed := if d.hasPrinter then [entry] else []
  if d.hasSender then
    let sent := trySend q entry
    { printed := printed
      queue := sent.1
      queue_error_inc := if sent.2 then 0 else 1
      enqueue_attempts := 1 }
  else
    { printed := printed, queue := q, queue_error_inc := 0, enqueue_attempts := 0 }

/-- Source `Logger::record for AptosData`: build the entry (with the
current thread's name and the backtrace flag) and hand it to `send_entry`.
Returns the effect and the field-conversion diagnostics. -/
def record (d : AptosData) (event : Event) (thread_name : Option String)
    (frames : List String) (hostname : Option String) (timestamp : String)
    (q : QueueState) : SendEffect × List String :=
  let built := LogEntry.new event thread_name d.enable_backtrace frames hostname timestamp
  (send_entry d built.1 q, built.2)

/-- Outcome of a `flush` call for the calling thread. -/
inductive FlushOutcome where
  | returned
  | panicked
  deriving DecidableEq, Repr

/-- Source `Logger::flush for AptosData`: with no sender it returns at
once; with a sender it does `sender.send(Flush(tx)).unwrap()` followed by
`rx.recv().unwrap()`, both of which panic when the dispatcher (the sole
receiver, which acknowledges every flush marker it processes) is gone. -/
def flush (d : AptosData) (receiverAlive : Bool) : FlushOutcome :=
  if d.hasSender then
    if receiverAlive then .returned else .panicked
  else
    .returned

/-- The dispatcher's per-run configuration (source `LoggerService`): an
optional owned printer and an optional remote address/TcpWriter. -/
structure ServiceConfig where
  hasPrinter : Bool
  hasRemote : Bool
  deriving DecidableEq, Repr

/-- Observable effect of one `Entry` iteration of `LoggerService::run`:
entries formatted and written to the local printer, entries handed to
`write_to_logstash`, and the `PROCESSED_STRUCT_LOG_COUNT` increment. -/
structure DispatchEffect where
  localWrites : List LogEntry
  remoteSends : List LogEntry
  processed_inc : Nat
  deriving DecidableEq, Repr

/-- The `LoggerServiceEvent::LogEntry` arm of `LoggerService::run`: the
live filter pair is re-read and each sink is gated independently. -/
def dispatchEntry (cfg : ServiceConfig) (fp : FilterPair) (entry : LogEntry) : DispatchEffect :=
  { processed_inc := 1
    localWrites :=
      if cfg.hasPrinter && fp.local_filter.enabled entry.metadata then [entry] else []
    remoteSends :=
      if cfg.hasRemote && fp.remote_filter.enabled entry.metadata then [entry] else [] }

/-- Rendering of a scalar JSON value (`serde_json` text form). -/
def Json.render : Json → String
  | .null => "null"
  | .bool b => cond b "true" "false"
  | .num n => toString n
  | .str s => "\"" ++ s ++ "\""

/-- `serde_json::to_string` of the entry's data map: a JSON object whose
members appear in the map's (sorted) iteration order. -/
def renderDataMap (data : List (Key × Json)) : String :=
  "\x7b" ++
    String.intercalate ","
      (data.map fun kv => "\"" ++ kv.1 ++ "\":" ++ kv.2.render) ++
  "\x7d"

/-- The message back-fill at the top of `write_to_logstash`: when the
entry carries no free-text message, synthesize one from the serialized
field map. -/
def fillMessage (e : LogEntry) : LogEntry :=
  match e.message with
  | none => { e with message := some (renderDataMap e.data) }
  | some _ => e

/-- `serde_json::to_string(&entry)`: the wire record with flattened
metadata, `None` options skipped, an empty data map skipped. -/
def serializeEntry (e : LogEntry) : String :=
  let metaFields :=
    [("level", Json.str (toString (repr e.metadata.level))),
     ("target", Json.str e.metadata.target),
     ("module_path", Json.str e.metadata.module_path),
     ("file", Json.str e.metadata.file),
     ("line", Json.num (Int.ofNat e.metadata.line))]
  let optFields :=
    (match e.thread_name with
     | some t => [("thread_name", Json.str t)]
     | none => []) ++
    (match e.backtrace with
     | some b => [("backtrace", Json.str (String.intercalate "\n" b))]
     | none => []) ++
    (match e.hostname with
     | some h => [("hostname", Json.str h)]
     | none => [])
  let tail :=
    (if e.data.isEmpty then "" else ",\"data\":" ++ renderDataMap e.data) ++
    (match e.message with
     | some m => ",\"message\":" ++ (Json.str m).render
     | none => "")
  renderDataMap (metaFields ++ optFields ++ [("timestamp", Json.str e.timestamp)]) ++ tail

/-- `NUM_SEND_RETRIES`: one retry beyond the original attempt. -/
def NUM_SEND_RETRIES : Nat := 1

/-- The retry loop of `write_to_logstash`. State is (write attempts made
so far, current result); each iteration stops on success and otherwise
performs one more `write_all`, whose outcome is `outcome` at the index of
that attempt. -/
def retryLoop (outcome : Nat → Bool) : Nat → Nat × Bool → Nat × Bool
  | 0, st => st
  | n + 1, st =>
    if st.2 then st
    else retryLoop outcome n (st.1 + 1, outcome st.1)

/-- The diagnostic `eprintln!` emitted when every attempt failed, naming
the endpoint. -/
def logstashDiag (endpoint : String) : String :=
  "[Logging] Error while sending data to logstash(" ++ endpoint ++ ")"

/-- Observable effect of `LoggerService::write_to_logstash`: the record
that was serialized (message back-filled), the wire string when
serialization succeeded, the number of `write_all` attempts, and the
increments to the parse-error, send-error, sent-count and sent-bytes
counters, plus emitted diagnostics. -/
structure LogstashResult where
  sentRecord : LogEntry
  wire : Option String
  attempts : Nat
  parse_error_inc : Nat
  send_error_inc : Nat
  sent_count_inc : Nat
  sent_bytes_inc : Nat
  diagnostics : List String
  deriving DecidableEq, Repr

/-- Source `LoggerService::write_to_logstash`. `serOk` is the outcome of
`serde_json::to_string(&entry)` (failure increments the parse-error
counter and stops); `outcome n` is the success of the n-th `write_all`
(0-indexed). The message gets a newline appended before writing; on final
failure the entry is dropped with one send-error increment and a
diagnostic naming the endpoint; on success the sent-count and sent-bytes
counters are incremented. -/
def writeToLogstash (serOk : Bool) (outcome : Nat → Bool) (endpoint : String)
    (entry0 : LogEntry) : LogstashResult :=
  let entry := fillMessage entry0
  if serOk then
    let wire := serializeEntry entry ++ "\n"
    let res := retryLoop outcome NUM_SEND_RETRIES (1, outcome 0)
    if res.2 then
      { sentRecord := entry, wire := some wire, attempts := res.1
        parse_error_inc := 0, send_error_inc := 0, sent_count_inc := 1
        sent_bytes_inc := wire.utf8ByteSize, diagnostics := [] }
    else
      { sentRecord := entry, wire := some wire, attempts := res.1
        parse_error_inc := 0, send_error_inc := 1, sent_count_inc := 0
        sent_bytes_inc := 0, diagnostics := [logstashDiag endpoint] }
  else
    { sentRecord := entry, wire := none, attempts := 0
      parse_error_inc := 1, send_error_inc := 0, sent_count_inc := 0
      sent_bytes_inc := 0, diagnostics := [] }

/-- Source `AptosDataBuilder` configuration (printer presence instead of
the boxed writer; formatter elided). -/
structure BuilderConfig where
  channel_size : Nat
  enable_backtrace : Bool
  level : Level
  remote_level : Level
  address : Option String
  hasPrinter : Bool
  is_async : Bool
  deriving DecidableEq, Repr

/-- The filter block of `AptosDataBuilder::build`. `envLocal` is the
filter `with_env(RUST_LOG)` would build when that variable is set (`none`
when unset), `envRemote` likewise for `RUST_LOG_REMOTE`. The remote filter
is env- or level-based only when async with an address; otherwise it is
hard-wired to `Off`. -/
def buildFilterPair (cfg : BuilderConfig) (envLocal envRemote : Option Filter) : FilterPair :=
  let localF :=
    match envLocal with
    | some f => f
    | none => Filter.ofLevel (levelToFilter cfg.level)
  let remoteF :=
    if cfg.is_async && cfg.address.isSome then
      match envRemote with
      | some f => f
      | none =>
        match envLocal with
        | some f => f
        | none => Filter.ofLevel (levelToFilter cfg.remote_level)
    else
      Filter.ofLevel .Off
  { local_filter := localF, remote_filter := remoteF }

/-- Result of `AptosDataBuilder::build`: the facade, and the spawned
`LoggerService`'s configuration when async. -/
structure BuildResult where
  facade : AptosData
  service : Option ServiceConfig
  deriving DecidableEq, Repr

/-- Source `AptosDataBuilder::build`: in async mode the facade holds the
sender and no printer (the printer moves to the service, which also takes
the address); in sync mode the facade keeps the printer and has no sender. -/
def build (cfg : BuilderConfig) (envLocal envRemote : Option Filter) : BuildResult :=
  let fp := buildFilterPair cfg envLocal envRemote
  if cfg.is_async then
    { facade :=
        { enable_backtrace := cfg.enable_backtrace
          hasSender := true
          hasPrinter := false
          filter := fp }
      service := some { hasPrinter := cfg.hasPrinter, hasRemote := cfg.address.isSome } }
  else
    { facade :=
        { enable_backtrace := cfg.enable_backtrace
          hasSender := false
          hasPrinter := cfg.hasPrinter
          filter := fp }
      service := none }

/-! Concrete sample values used by witnesses and counterexamples. -/

def mdInfo : Metadata :=
  { level := .Info, target := "sample", module_path := "sample::sub", file := "sample.rs", line := 10 }

def mdErr : Metadata :=
  { level := .Error, target := "sample", module_path := "sample::sub", file := "sample.rs", line := 20 }

def sampleEntry : LogEntry :=
  { metadata := mdInfo, thread_name := some "main", backtrace := none, hostname := none
    timestamp := "2022-01-01T00:00:00.000000Z", data := [("foo", Json.num 5)]
    message := some "hello" }

def sampleEntryNoMsg : LogEntry :=
  { sampleEntry with message := none }

def infoFilter : Filter := Filter.ofLevel .Info

def offFilter : Filter := Filter.ofLevel .Off

def fpOn : FilterPair := { local_filter := infoFilter, remote_filter := infoFilter }

def fpOff : FilterPair := { local_filter := offFilter, remote_filter := offFilter }

def cfgBothSinks : ServiceConfig := { hasPrinter := true, hasRemote := true }

def dAsyncOff : AptosData :=
  { enable_backtrace := false, hasSender := true, hasPrinter := false, filter := fpOff }

def dAsyncOn : AptosData :=
  { enable_backtrace := false, hasSender := true, hasPrinter := false, filter := fpOn }

def evInfo : Event := { metadata := mdInfo, message := some "hello", pairs := [] }

def evErr : Event := { metadata := mdErr, message := some "boom", pairs := [] }

def qEmpty : QueueState := { entries := [], capacity := 10000, receiverAlive := true }

def qZero : QueueState := { entries := [], capacity := 0, receiverAlive := true }

def cfgSyncBuilder : BuilderConfig :=
  { channel_size := 10000, enable_backtrace := false, level := .Info, remote_level := .Debug
    address := some "127.0.0.1:5044", hasPrinter := true, is_async := false }

def alwaysFail : Nat → Bool := fun _ => false

def alwaysOk : Nat → Bool := fun _ => true

/-! Helper lemmas about the sorted field map and the visitor fold. -/

lemma mem_insertSorted {k : Key} {v : Json} {x : Key × Json} :
    ∀ {l : List (Key × Json)}, x ∈ insertSorted k v l → x = (k, v) ∨ x ∈ l := by
  intro l
  induction l with
  | nil =>
    intro hx
    simp [insertSorted] at hx
    exact Or.inl hx
  | cons hd tl ih =>
    intro hx
    by_cases h1 : k < hd.1
    · simp [insertSorted, h1] at hx
      rcases hx with h | h | h
      · exact Or.inl (by simp [h])
      · exact Or.inr (by simp [h])
      · exact Or.inr (List.mem_cons_of_mem _ h)
    · by_cases h2 : k = hd.1
      · simp [insertSorted, h1, h2] at hx
        rcases hx with h | h
        · exact Or.inl (by simp [h, h2])
        · exact Or.inr (List.mem_cons_of_mem _ h)
      · simp only [insertSorted, if_neg h1, if_neg h2, List.mem_cons] at hx
        rcases hx with h | h
        · exact Or.inr (by simp [h])
        · rcases ih h with h' | h'
          · exact Or.inl h'
          · exact Or.inr (List.mem_cons_of_mem _ h')

lemma pairwise_insertSorted {k : Key} {v : Json} :
    ∀ {l : List (Key × Json)},
      l.Pairwise (fun a b => a.1 < b.1) →
      (insertSorted k v l).Pairwise (fun a b => a.1 < b.1) := by
  intro l
  induction l with
  | nil =>
    intro _
    simp [insertSorted]
  | cons hd tl ih =>
    intro h
    rw [List.pairwise_cons] at h
    obtain ⟨hhd, htl⟩ := h
    by_cases h1 : k < hd.1
    · simp only [insertSorted, if_pos h1]
      rw [List.pairwise_cons]
      constructor
      · intro x hx
        rcases List.mem_cons.mp hx with h' | h'
        · rw [h']; exact h1
        · exact lt_trans h1 (hhd x h')
      · rw [List.pairwise_cons]; exact ⟨hhd, htl⟩
    · by_cases h2 : k = hd.1
      · simp only [insertSorted, if_neg h1, if_pos h2]
        rw [List.pairwise_cons]
        refine ⟨fun x hx => ?_, htl⟩
        rw [h2]
        exact hhd x hx
      · simp only [insertSorted, if_neg h1, if_neg h2]
        rw [List.pairwise_cons]
        constructor
        · intro x hx
          rcases mem_insertSorted hx with h' | h'
          · rw [h']
            exact lt_of_le_of_ne (not_lt.mp h1) (fun he => h2 he.symm)
          · exact hhd x h'
        · exact ih htl

lemma pairwise_buildDataAux :
    ∀ (pairs : List (Key × Value)) (acc : List (Key × Json)) (diags : List String),
      acc.Pairwise (fun a b => a.1 < b.1) →
      (buildDataAux acc diags pairs).1.Pairwise (fun a b => a.1 < b.1) := by
  intro pairs
  induction pairs with
  | nil =>
    intro acc diags h
    simpa [buildDataAux] using h
  | cons hd tl ih =>
    intro acc diags h
    obtain ⟨k, v⟩ := hd
    cases hc : convertValue v with
    | ok j =>
      simp only [buildDataAux, hc]
      exact ih _ _ (pairwise_insertSorted h)
    | error e =>
      simp only [buildDataAux, hc]
      exact ih _ _ h

lemma buildDataAux_fst_diags :
    ∀ (pairs : List (Key × Value)) (acc : List (Key × Json)) (d1 d2 : List String),
      (buildDataAux acc d1 pairs).1 = (buildDataAux acc d2 pairs).1 := by
  intro pairs
  induction pairs with
  | nil => intro acc d1 d2; simp [buildDataAux]
  | cons hd tl ih =>
    intro acc d1 d2
    obtain ⟨k, v⟩ := hd
    cases hc : convertValue v with
    | ok j => simp only [buildDataAux, hc]; exact ih _ _ _
    | error e => simp only [buildDataAux, hc]; exact ih _ _ _

lemma buildDataAux_snd_len :
    ∀ (pairs : List (Key × Value)) (acc : List (Key × Json)) (d : List String),
      (buildDataAux acc d pairs).2.length = d.length + (buildDataAux acc [] pairs).2.length := by
  intro pairs
  induction pairs with
  | nil => intro acc d; simp [buildDataAux]
  | cons hd tl ih =>
    intro acc d
    obtain ⟨k, v⟩ := hd
    cases hc : convertValue v with
    | ok j =>
      simp only [buildDataAux, hc]
      exact ih _ _
    | error e =>
      simp only [buildDataAux, hc]
      rw [ih _ (d ++ [conversionDiag e]), ih _ ([] ++ [conversionDiag e])]
      simp
      omega

lemma buildDataAux_mem_diags :
    ∀ (pairs : List (Key × Value)) (acc : List (Key × Json)) (d : List String) (x : String),
      x ∈ d → x ∈ (buildDataAux acc d pairs).2 := by
  intro pairs
  induction pairs with
  | nil => intro acc d x hx; simpa [buildDataAux] using hx
  | cons hd tl ih =>
    intro acc d x hx
    obtain ⟨k, v⟩ := hd
    cases hc : convertValue v with
    | ok j =>
      simp only [buildDataAux, hc]
      exact ih _ _ _ hx
    | error e =>
      simp only [buildDataAux, hc]
      exact ih _ _ _ (List.mem_append_left _ hx)

lemma buildDataAux_skip_fst :
    ∀ (pre : List (Key × Value)) (acc : List (Key × Json)) (diags : List String)
      (k : Key) (err : String) (post : List (Key × Value)),
      (buildDataAux acc diags (pre ++ (k, Value.serde (Except.error err)) :: post)).1 =
        (buildDataAux acc diags (pre ++ post)).1 := by
  intro pre
  induction pre with
  | nil =>
    intro acc diags k err post
    simp only [List.nil_append, buildDataAux, convertValue]
    exact buildDataAux_fst_diags _ _ _ _
  | cons hd tl ih =>
    intro acc diags k err post
    obtain ⟨k', v'⟩ := hd
    cases hc : convertValue v' with
    | ok j =>
      simp only [List.cons_append, buildDataAux, hc]
      exact ih _ _ _ _ _
    | error e =>
      simp only [List.cons_append, buildDataAux, hc]
      exact ih _ _ _ _ _

lemma buildDataAux_skip_len :
    ∀ (pre : List (Key × Value)) (acc : List (Key × Json)) (diags : List String)
      (k : Key) (err : String) (post : List (Key × Value)),
      (buildDataAux acc diags (pre ++ (k, Value.serde (Except.error err)) :: post)).2.length =
        (buildDataAux acc diags (pre ++ post)).2.length + 1 := by
  intro pre
  induction pre with
  | nil =>
    intro acc diags k err post
    simp only [List.nil_append, buildDataAux, convertValue]
    rw [buildDataAux_snd_len post acc (diags ++ [conversionDiag err]),
      buildDataAux_snd_len post acc diags]
    simp
    omega
  | cons hd tl ih =>
    intro acc diags k err post
    obtain ⟨k', v'⟩ := hd
    cases hc : convertValue v' with
    | ok j =>
      simp only [List.cons_append, buildDataAux, hc]
      exact ih _ _ _ _ _
    | error e =>
      simp only [List.cons_append, buildDataAux, hc]
      exact ih _ _ _ _ _

lemma buildDataAux_skip_mem :
    ∀ (pre : List (Key × Value)) (acc : List (Key × Json)) (diags : List String)
      (k : Key) (err : String) (post : List (Key × Value)),
      conversionDiag err ∈
        (buildDataAux acc diags (pre ++ (k, Value.serde (Except.error err)) :: post)).2 := by
  intro pre
  induction pre with
  | nil =>
    intro acc diags k err post
    simp only [List.nil_append, buildDataAux, convertValue]
    exact buildDataAux_mem_diags _ _ _ _ (List.mem_append_right _ (by simp))
  | cons hd tl ih =>
    intro acc diags k err post
    obtain ⟨k', v'⟩ := hd
    cases hc : convertValue v' with
    | ok j =>
      simp only [List.cons_append, buildDataAux, hc]
      exact ih _ _ _ _ _
    | error e =>
      simp only [List.cons_append, buildDataAux, hc]
      exact ih _ _ _ _ _

lemma levelNum_pos (l : Level) : 1 ≤ levelNum l := by
  cases l <;> simp [levelNum]

lemma offFilter_rejects (f : Filter) (hf : f = Filter.ofLevel .Off) (md : Metadata) :
    f.enabled md = false := by
  subst hf
  simp only [Filter.enabled, Filter.ofLevel, bestDirective, filterNum]
  have h := levelNum_pos md.level
  simp
  omega

/-! Claim theorems. -/

/-- C1: for every entry handled by the LoggerService dispatch loop, the
entry is written to the local Writer only if the live local filter enables
its metadata, and handed to the remote transport only if the live remote
filter enables its metadata; an entry never reaches a sink whose filter
rejects it. -/
theorem c1_dispatch_respects_sink_filters (cfg : ServiceConfig) (fp : FilterPair)
    (e e' : LogEntry) :
    (e' ∈ (dispatchEntry cfg fp e).localWrites →
      fp.local_filter.enabled e'.metadata = true) ∧
    (e' ∈ (dispatchEntry cfg fp e).remoteSends →
      fp.remote_filter.enabled e'.metadata = true) := by
  constructor
  · intro h
    simp only [dispatchEntry] at h
    by_cases hc : (cfg.hasPrinter && fp.local_filter.enabled e.metadata) = true
    · rw [if_pos hc, List.mem_singleton] at h
      subst h
      simp only [Bool.and_eq_true] at hc
      exact hc.2
    · rw [if_neg hc] at h
      simp at h
  · intro h
    simp only [dispatchEntry] at h
    by_cases hc : (cfg.hasRemote && fp.remote_filter.enabled e.metadata) = true
    · rw [if_pos hc, List.mem_singleton] at h
      subst h
      simp only [Bool.and_eq_true] at hc
      exact hc.2
    · rw [if_neg hc] at h
      simp at h

theorem c1_dispatch_respects_sink_filters_witness :
    fpOn.local_filter.enabled sampleEntry.metadata = true :=
  (c1_dispatch_respects_sink_filters cfgBothSinks fpOn sampleEntry sampleEntry).1 (by decide)

/-- C2 (code-bug evaluation): `flush` on an async facade whose dispatcher
(the channel's only receiver) has already exited panics the calling thread
-- the source unwraps both the marker send and the rendezvous receive --
whereas with a live dispatcher it returns. -/
theorem c2_flush_panics_without_listener :
    flush dAsyncOn false = FlushOutcome.panicked ∧
    flush dAsyncOn true = FlushOutcome.returned := by
  decide

/-- C3 (counterexample): a facade whose two filters reject Info metadata
(`FilterPair.enabled` is false) still enqueues the entry onto the delivery
channel when `record` is called, so `record` is not a no-op with respect
to I/O for rejected metadata. -/
theorem c3_counterexample :
    FilterPair.enabled dAsyncOff.filter mdInfo = false ∧
    (record dAsyncOff evInfo none [] none "ts" qEmpty).1.queue.entries.length = 1 := by
  decide

/-- C3 (amended): `record` does not consult the filters -- with a sender
and channel room it always enqueues. The no-I/O guarantee for metadata
rejected by `FilterPair.enabled` holds at the gate the call-site layer
uses (`AptosData.enabled` returns false) and at the dispatcher, which
delivers such an entry to no sink. -/
theorem c3_record_bypasses_filter_gate (d : AptosData) (cfg : ServiceConfig) (md : Metadata)
    (h : FilterPair.enabled d.filter md = false) :
    AptosData.enabled d md = false ∧
    (∀ e' : LogEntry, e'.metadata = md →
      (dispatchEntry cfg d.filter e').localWrites = [] ∧
      (dispatchEntry cfg d.filter e').remoteSends = []) ∧
    (∀ (event : Event) (tn : Option String) (frames : List String) (hn : Option String)
        (ts : String) (q : QueueState),
      d.hasSender = true → q.receiverAlive = true → q.entries.length < q.capacity →
      (record d event tn frames hn ts q).1.queue.entries.length = q.entries.length + 1) := by
  have hor := h
  simp only [FilterPair.enabled, Bool.or_eq_false_iff] at hor
  obtain ⟨hl, hr⟩ := hor
  refine ⟨h, ?_, ?_⟩
  · intro e' he
    constructor
    · simp [dispatchEntry, he, hl]
    · simp [dispatchEntry, he, hr]
  · intro event tn frames hn ts q hs ha hlen
    simp [record, send_entry, trySend, hs, ha, hlen]

theorem c3_record_bypasses_filter_gate_witness :
    FilterPair.enabled dAsyncOff.filter mdInfo = false ∧
    AptosData.enabled dAsyncOff mdInfo = false :=
  ⟨by decide, (c3_record_bypasses_filter_gate dAsyncOff cfgBothSinks mdInfo (by decide)).1⟩

/-- C4: in async mode, when the bounded channel is full the non-blocking
enqueue fails, the entry is dropped (the queue is unchanged), the
queue-drop counter is incremented by exactly one, and exactly one enqueue
attempt is made -- no blocking, no retry. -/
theorem c4_full_queue_drops_and_counts (d : AptosData) (q : QueueState) (e : LogEntry)
    (hs : d.hasSender = true) (hfull : q.capacity ≤ q.entries.length) :
    (send_entry d e q).queue = q ∧
    (send_entry d e q).queue_error_inc = 1 ∧
    (send_entry d e q).enqueue_attempts = 1 := by
  have hnot : ¬ q.entries.length < q.capacity := not_lt.mpr hfull
  refine ⟨?_, ?_, ?_⟩ <;> simp [send_entry, trySend, hs, hnot]

theorem c4_full_queue_drops_and_counts_witness :
    (send_entry dAsyncOn sampleEntry qZero).queue = qZero ∧
    (send_entry dAsyncOn sampleEntry qZero).queue_error_inc = 1 ∧
    (send_entry dAsyncOn sampleEntry qZero).enqueue_attempts = 1 :=
  c4_full_queue_drops_and_counts dAsyncOn qZero sampleEntry (by decide) (by decide)

/-- C5: per entry handed to the logstash writer, at most two write
attempts are made (`NUM_SEND_RETRIES = 1`); when both fail the send-error
counter is incremented by exactly one, a diagnostic naming the endpoint is
emitted and the entry is dropped (no success counters move); when an
attempt succeeds the sent-count counter is incremented by one and the
sent-bytes counter by the byte length of the serialized message (record
separator included). -/
theorem c5_remote_retry_then_drop (serOk : Bool) (outcome : Nat → Bool) (ep : String)
    (e : LogEntry) :
    (writeToLogstash serOk outcome ep e).attempts ≤ 2 ∧
    (serOk = true → outcome 0 = false → outcome 1 = false →
      (writeToLogstash serOk outcome ep e).attempts = 2 ∧
      (writeToLogstash serOk outcome ep e).send_error_inc = 1 ∧
      (writeToLogstash serOk outcome ep e).sent_count_inc = 0 ∧
      (writeToLogstash serOk outcome ep e).diagnostics = [logstashDiag ep]) ∧
    (serOk = true → outcome 0 = true →
      (writeToLogstash serOk outcome ep e).attempts = 1 ∧
      (writeToLogstash serOk outcome ep e).sent_count_inc = 1 ∧
      (writeToLogstash serOk outcome ep e).send_error_inc = 0 ∧
      (writeToLogstash serOk outcome ep e).sent_bytes_inc =
        (serializeEntry (fillMessage e) ++ "\n").utf8ByteSize) ∧
    (serOk = true → outcome 0 = false → outcome 1 = true →
      (writeToLogstash serOk outcome ep e).attempts = 2 ∧
      (writeToLogstash serOk outcome ep e).sent_count_inc = 1 ∧
      (writeToLogstash serOk outcome ep e).sent_bytes_inc =
        (serializeEntry (fillMessage e) ++ "\n").utf8ByteSize) := by
  cases serOk with
  | false =>
    refine ⟨by simp [writeToLogstash], ?_, ?_, ?_⟩ <;> (intro h; simp at h)
  | true =>
    cases h0 : outcome 0 with
    | true =>
      refine ⟨?_, ?_, ?_, ?_⟩ <;>
        simp [writeToLogstash, NUM_SEND_RETRIES, retryLoop, h0]
    | false =>
      cases h1 : outcome 1 with
      | true =>
        refine ⟨?_, ?_, ?_, ?_⟩ <;>
          simp [writeToLogstash, NUM_SEND_RETRIES, retryLoop, h0, h1]
      | false =>
        refine ⟨?_, ?_, ?_, ?_⟩ <;>
          simp [writeToLogstash, NUM_SEND_RETRIES, retryLoop, h0, h1]

theorem c5_remote_retry_then_drop_witness :
    (writeToLogstash true alwaysFail "ep" sampleEntry).attempts = 2 ∧
    (writeToLogstash true alwaysFail "ep" sampleEntry).send_error_inc = 1 ∧
    (writeToLogstash true alwaysFail "ep" sampleEntry).sent_count_inc = 0 ∧
    (writeToLogstash true alwaysFail "ep" sampleEntry).diagnostics = [logstashDiag "ep"] :=
  (c5_remote_retry_then_drop true alwaysFail "ep" sampleEntry).2.1 rfl rfl rfl

/-- C6 (counterexample): with backtrace enabled and an Error-level event,
a captured stack of two frames is retained in full; the claimed
unconditional discarding of the first 3 frames would leave it empty. The
source drains the first 3 frames only when more than 3 were captured. -/
theorem c6_counterexample :
    (LogEntry.new evErr none true ["f1", "f2"] none "ts").1.backtrace = some ["f1", "f2"] ∧
    some ["f1", "f2"] ≠ some (List.drop 3 ["f1", "f2"]) := by
  decide

/-- C6 (amended): the backtrace field is Some iff enable_backtrace is true
and the event's level is Error; when captured, the first 3 frames are
discarded exactly when more than 3 frames were captured, and a stack of at
most 3 frames is retained in full; otherwise the field is None. -/
theorem c6_backtrace_gating (e : Event) (tn : Option String) (eb : Bool)
    (frames : List String) (hn : Option String) (ts : String) :
    ((LogEntry.new e tn eb frames hn ts).1.backtrace.isSome = true ↔
      (eb = true ∧ e.metadata.level = Level.Error)) ∧
    (∀ bt, (LogEntry.new e tn eb frames hn ts).1.backtrace = some bt →
      (3 < frames.length → bt = frames.drop 3) ∧
      (frames.length ≤ 3 → bt = frames)) := by
  have hb : (LogEntry.new e tn eb frames hn ts).1.backtrace =
      (if eb && decide (e.metadata.level = Level.Error) then
        some (processFrames frames)
      else none) := rfl
  constructor
  · rw [hb]
    by_cases hc : (eb && decide (e.metadata.level = Level.Error)) = true
    · rw [if_pos hc]
      simp only [Bool.and_eq_true, decide_eq_true_eq] at hc
      simp [hc]
    · rw [if_neg hc]
      simp only [Bool.and_eq_true, decide_eq_true_eq] at hc
      simp only [Option.isSome_none, Bool.false_eq_true, false_iff]
      exact hc
  · intro bt hbt
    rw [hb] at hbt
    by_cases hc : (eb && decide (e.metadata.level = Level.Error)) = true
    · rw [if_pos hc, Option.some.injEq] at hbt
      constructor
      · intro h3
        rw [← hbt]
        simp [processFrames, h3]
      · intro h3
        rw [← hbt]
        simp [processFrames, not_lt.mpr h3]
    · rw [if_neg hc] at hbt
      simp at hbt

theorem c6_backtrace_gating_witness :
    (LogEntry.new evErr none true ["f1", "f2", "f3", "f4"] none "ts").1.backtrace.isSome = true :=
  (c6_backtrace_gating evErr none true ["f1", "f2", "f3", "f4"] none "ts").1.mpr
    ⟨rfl, rfl⟩

/-- C7: the record serialized onto the logstash wire always carries a
message: when the entry's free-text message is absent, one is synthesized
from the serialized field map before serialization, and a present message
is kept unchanged. -/
theorem c7_wire_message_nonnull (serOk : Bool) (outcome : Nat → Bool) (ep : String)
    (e : LogEntry) :
    (writeToLogstash serOk outcome ep e).sentRecord.message.isSome = true ∧
    (∀ m, e.message = some m →
      (writeToLogstash serOk outcome ep e).sentRecord.message = some m) ∧
    (e.message = none →
      (writeToLogstash serOk outcome ep e).sentRecord.message = some (renderDataMap e.data)) := by
  have hrec : (writeToLogstash serOk outcome ep e).sentRecord = fillMessage e := by
    cases serOk
    · simp [writeToLogstash]
    · simp only [writeToLogstash]
      simp
      split
      · rfl
      · rfl
  refine ⟨?_, ?_, ?_⟩
  · rw [hrec]
    cases hm : e.message <;> simp [fillMessage, hm]
  · intro m hm
    rw [hrec]
    simp [fillMessage, hm]
  · intro hm
    rw [hrec]
    simp [fillMessage, hm]

theorem c7_wire_message_nonnull_witness :
    (writeToLogstash true alwaysOk "ep" sampleEntry).sentRecord.message = some "hello" :=
  (c7_wire_message_nonnull true alwaysOk "ep" sampleEntry).2.1 "hello" rfl

/-- C8: the field map of every constructed LogEntry iterates its keys in
strictly increasing (sorted) order -- hence the keys are unique and the
serialized rendering, which follows iteration order, is in sorted key
order -- regardless of the order in which the event's pairs were visited. -/
theorem c8_data_keys_sorted (e : Event) (tn : Option String) (eb : Bool)
    (frames : List String) (hn : Option String) (ts : String) :
    ((LogEntry.new e tn eb frames hn ts).1.data.map Prod.fst).Sorted (· < ·) ∧
    ((LogEntry.new e tn eb frames hn ts).1.data.map Prod.fst).Nodup := by
  have hp : (LogEntry.new e tn eb frames hn ts).1.data.Pairwise (fun a b => a.1 < b.1) := by
    have hdata : (LogEntry.new e tn eb frames hn ts).1.data = (buildDataAux [] [] e.pairs).1 := rfl
    rw [hdata]
    exact pairwise_buildDataAux e.pairs [] [] List.Pairwise.nil
  have hmap : ((LogEntry.new e tn eb frames hn ts).1.data.map Prod.fst).Pairwise (· < ·) :=
    List.pairwise_map.mpr hp
  exact ⟨hmap, List.Pairwise.imp (fun hab => ne_of_lt hab) hmap⟩

/-- C9: a structured-value conversion failure for one field omits only
that field: the entry is still built, its field map equals the map built
without the failing pair, and exactly one extra diagnostic -- the
conversion error -- is emitted. -/
theorem c9_failed_field_skipped (md : Metadata) (msg : Option String)
    (pre post : List (Key × Value)) (k : Key) (err : String)
    (tn : Option String) (eb : Bool) (frames : List String) (hn : Option String)
    (ts : String) :
    (LogEntry.new ⟨md, msg, pre ++ (k, Value.serde (Except.error err)) :: post⟩
        tn eb frames hn ts).1.data =
      (LogEntry.new ⟨md, msg, pre ++ post⟩ tn eb frames hn ts).1.data ∧
    (LogEntry.new ⟨md, msg, pre ++ (k, Value.serde (Except.error err)) :: post⟩
        tn eb frames hn ts).2.length =
      (LogEntry.new ⟨md, msg, pre ++ post⟩ tn eb frames hn ts).2.length + 1 ∧
    conversionDiag err ∈
      (LogEntry.new ⟨md, msg, pre ++ (k, Value.serde (Except.error err)) :: post⟩
        tn eb frames hn ts).2 :=
  ⟨buildDataAux_skip_fst pre [] [] k err post,
   buildDataAux_skip_len pre [] [] k err post,
   buildDataAux_skip_mem pre [] [] k err post⟩

/-- C10: build() sets the remote filter to Off unless both the async flag
is set and a remote address is configured; such an Off remote filter
rejects every metadata, so in sync mode the configured remote level is
ignored. -/
theorem c10_remote_filter_off_unless_async_with_address (cfg : BuilderConfig)
    (envLocal envRemote : Option Filter)
    (h : ¬(cfg.is_async = true ∧ cfg.address.isSome = true)) :
    (build cfg envLocal envRemote).facade.filter.remote_filter = Filter.ofLevel .Off ∧
    ∀ md, ((build cfg envLocal envRemote).facade.filter.remote_filter).enabled md = false := by
  have hra : (cfg.is_async && cfg.address.isSome) = false := by
    rw [Bool.eq_false_iff]
    intro hab
    exact h (by simpa [Bool.and_eq_true] using hab)
  have hfp : (build cfg envLocal envRemote).facade.filter =
      buildFilterPair cfg envLocal envRemote := by
    cases hasync : cfg.is_async <;> simp [build, hasync]
  have hrf : (buildFilterPair cfg envLocal envRemote).remote_filter = Filter.ofLevel .Off := by
    simp [buildFilterPair, hra]
  rw [hfp, hrf]
  exact ⟨rfl, fun md => offFilter_rejects _ rfl md⟩

theorem c10_remote_filter_off_unless_async_with_address_witness :
    (build cfgSyncBuilder none none).facade.filter.remote_filter = Filter.ofLevel .Off ∧
    ((build cfgSyncBuilder none none).facade.filter.remote_filter).enabled mdErr = false := by
  have h := c10_remote_filter_off_unless_async_with_address cfgSyncBuilder none none (by decide)
  exact ⟨h.1, h.2 mdErr⟩

end AptosLogger
